import Mathlib

/-!
Shallow embedding of the GazeFlow relay server (`gazeflow-relay.js`).

The relay keeps one upstream WebSocket connection (to GazeFlow/GazePointer),
performs a text handshake (the AppKey is sent on `open`; the first reply is
the auth status, successful iff it starts with `"ok"`), parses subsequent
frames as JSON with numeric `GazeX`/`GazeY` fields, and broadcasts the point
`\x7b x, y \x7d` to every connected browser client.  On failure it reconnects with
exponential backoff (base 1000 ms doubling to a 10000 ms cap), with at most
one reconnect timer pending at a time.

Modelling conventions:
* module-level mutable state (`lastPoint`, `upstreamAuthorized`,
  `reconnectDelay`, `reconnectTimer`, the set of browser clients) becomes the
  record `RelayState`; `reconnectTimer` is abstracted to the Boolean
  `reconnectTimerPending` (the only observations the code makes of the handle
  are null-tests, clearing, and firing);
* `JSON.parse` is treated as a primitive: a handler receives both the raw
  frame text and the parse result (`Option Json`), `none` standing for a
  thrown `SyntaxError`; property access on the parsed value follows
  JavaScript semantics, including the `TypeError` that `raw.GazeX` throws
  when the parsed value is `null` (surfaced as the `uncaughtTypeError`
  effect, since the source has no handler for it);
* side effects on the upstream socket (`upstream.send`, `upstream.close`) and
  timer creation are reported as an `Effect` list; delivery to a browser
  client is recorded in that client's `inbox`;
* JavaScript numbers are modelled as `ℚ`; `numToString` models the
  ECMAScript number-to-string conversion on values with a finite decimal
  expansion (every value the relay prints in practice).
-/

/-- `RELAY_PORT` from the configuration block (liveness/HTTP only). -/
def RELAY_PORT : Nat := 8080

/-- The AppKey credential sent as the first upstream frame. -/
def APP_KEY : String := "AppKeyTrial"

/-- Base reconnect delay in milliseconds (`RECONNECT_BASE_DELAY = 1000`). -/
def RECONNECT_BASE_DELAY : Nat := 1000

/-- Maximum reconnect delay in milliseconds (`RECONNECT_MAX_DELAY = 10000`). -/
def RECONNECT_MAX_DELAY : Nat := 10000

/-- The `ws` library's `WebSocket.OPEN` ready-state constant. -/
def WebSocket.OPEN : Nat := 1

/-- The `ws` library's `WebSocket.CLOSED` ready-state constant. -/
def WebSocket.CLOSED : Nat := 3

/-- A gaze point as broadcast to browsers: `\x7b x: GazeX, y: GazeY \x7d`. -/
structure Point where
  x : ℚ
  y : ℚ
deriving DecidableEq, Repr

/-- A parsed JSON value (`JSON.parse` result).  Objects keep their fields in
order with distinct keys, as produced by the JavaScript parser. -/
inductive Json where
  | null
  | bool (b : Bool)
  | num (q : ℚ)
  | str (s : String)
  | arr (elems : List Json)
  | obj (fields : List (String × Json))
deriving Repr

/-- JavaScript property access `value.key` on a parse result.  On `null` it
throws a `TypeError` (modelled as `none`); on an object it yields
`some (some v)` for a present field `v` and `undefined` (`some none`) for an
absent one; on any other JSON value it yields `undefined` (numbers, strings
and booleans are boxed, and an array has no such key). -/
def Json.getProp : Json → String → Option (Option Json)
  | Json.null, _ => none
  | Json.obj fields, key => some (fields.lookup key)
  | _, _ => some none

/-- A browser client connected to the relay's WebSocket server.  `inbox`
records the payload of every `client.send` in order. -/
structure Client where
  id : Nat
  readyState : Nat
  inbox : List String
deriving DecidableEq, Repr

/-- The module-level mutable state of `gazeflow-relay.js`. -/
structure RelayState where
  lastPoint : Option Point
  upstreamAuthorized : Bool
  reconnectDelay : Nat
  reconnectTimerPending : Bool
  clients : List Client
deriving DecidableEq, Repr

/-- Observable side effects of the handlers, other than browser-client
delivery (which is recorded in each client's `inbox`).
`uncaughtTypeError` marks a `TypeError` escaping the message handler (the
source has no catch around the field check of line 114, so the Node process
crashes). -/
inductive Effect where
  | sendUpstream (data : String)
  | closeUpstream
  | scheduledReconnect (reason : String) (delay : Nat)
  | uncaughtTypeError
deriving DecidableEq, Repr

/-- The least `k ≤ 30` such that `n / den` has a decimal expansion of `k`
fractional digits, i.e. `den ∣ 10^k` (for a reduced fraction). -/
def decExpOf (den : Nat) : Option Nat :=
  (List.range 31).find? (fun k => 10 ^ k % den == 0)

/-- Decimal rendering of the nonnegative reduced fraction `n / den` with a
finite decimal expansion.  Models ECMAScript `Number::toString` on such
values (`0.5 ↦ "0.5"`, `0.25 ↦ "0.25"`, `3 ↦ "3"`, `0.01 ↦ "0.01"`). -/
def natDecString (n : Nat) (den : Nat) : String :=
  match decExpOf den with
  | none => toString n ++ "/" ++ toString den
  | some 0 => toString (n / den)
  | some (Nat.succ k0) =>
      let k := Nat.succ k0
      let m := n * (10 ^ k / den)
      let fracStr := toString (m % 10 ^ k)
      toString (m / 10 ^ k) ++ "." ++
        String.mk (List.replicate (k - fracStr.length) '0') ++ fracStr

/-- ECMAScript number-to-string, signed (`q < 0` iff its numerator is). -/
def numToString (q : ℚ) : String :=
  if q.num < 0 then "-" ++ natDecString q.num.natAbs q.den
  else natDecString q.num.toNat q.den

/-- JavaScript `s.startsWith(pre)`: case-sensitive literal prefix test. -/
def jsStartsWith (s pre : String) : Bool :=
  pre.data.isPrefixOf s.data

/-- `JSON.stringify(point)` for a point `\x7b x, y \x7d` (insertion order `x`, `y`). -/
def stringifyPoint (p : Point) : String :=
  "\x7b\"x\":" ++ numToString p.x ++ ",\"y\":" ++ numToString p.y ++ "\x7d"

/-- One step of the `wss.clients.forEach` loop in `broadcastPoint`: deliver
`payload` when the client's channel is `OPEN`, otherwise skip it. -/
def sendToOpenClient (payload : String) (client : Client) : Client :=
  if client.readyState = WebSocket.OPEN then
    { client with inbox := client.inbox ++ [payload] }
  else
    client

/-- `broadcastPoint(point)`: store the point as `lastPoint`, serialize it
once, and push the payload to every currently open browser client. -/
def broadcastPoint (st : RelayState) (point : Point) : RelayState :=
  let payload := stringifyPoint point
  { st with
      lastPoint := some point
      clients := st.clients.map (sendToOpenClient payload) }

/-- `scheduleReconnect(reason)`: if a timer is already pending, do nothing;
otherwise create a timer for the current delay (reported as a
`scheduledReconnect` effect) and double the delay, capped at the maximum. -/
def scheduleReconnect (reason : String) (st : RelayState) :
    RelayState × List Effect :=
  if st.reconnectTimerPending then
    (st, [])
  else
    ({ st with
        reconnectTimerPending := true
        reconnectDelay := min (st.reconnectDelay * 2) RECONNECT_MAX_DELAY },
     [Effect.scheduledReconnect reason st.reconnectDelay])

/-- `connectUpstream()` as far as the module state is concerned: reset
`upstreamAuthorized` and open a fresh upstream socket (the best-effort close
of a previous open socket and the socket object itself live outside the
state model). -/
def connectUpstream (st : RelayState) : RelayState :=
  { st with upstreamAuthorized := false }

/-- The `upstream.on("message")` handler.  `msg` is the frame text,
`parsed` the result of `JSON.parse msg` (`none` for a parse error).  Before
authorization the frame is the auth status: authorized iff it starts with
`"ok"`, and on failure the socket is closed and a reconnect is scheduled with
reason `auth_failed`.  Once authorized, frames that fail to parse are
discarded (the try/catch wraps only `JSON.parse`); a parsed `null` throws a
`TypeError` at the uncaught field check of line 114 (`raw.GazeX` on `null`);
any other parsed value lacking numeric `GazeX`/`GazeY` fields is discarded;
valid ones are broadcast. -/
def upstreamOnMessage (st : RelayState) (msg : String) (parsed : Option Json) :
    RelayState × List Effect :=
  if st.upstreamAuthorized = false then
    if jsStartsWith msg "ok" then
      ({ st with upstreamAuthorized := true }, [])
    else
      let st1 := { st with upstreamAuthorized := false }
      let next := scheduleReconnect "auth_failed" st1
      (next.1, Effect.closeUpstream :: next.2)
  else
    match parsed with
    | none => (st, [])
    | some raw =>
      match raw.getProp "GazeX", raw.getProp "GazeY" with
      | none, _ => (st, [Effect.uncaughtTypeError])
      | _, none => (st, [Effect.uncaughtTypeError])
      | some (some (Json.num gx)), some (some (Json.num gy)) =>
          (broadcastPoint st { x := gx, y := gy }, [])
      | _, _ => (st, [])

/-- Events delivered to the upstream client: the socket's `open`, `message`,
`close`, and `error` callbacks, plus the reconnect timer firing. -/
inductive UpEvent where
  | opened
  | message (msg : String) (parsed : Option Json)
  | close
  | error
  | timerFire

/-- One event step.  `opened` resets the backoff to base and sends the
AppKey; `close` schedules a reconnect; `error` schedules one only when no
timer is pending; `timerFire` clears the pending marker and re-invokes
`connectUpstream`. -/
def step (st : RelayState) : UpEvent → RelayState × List Effect
  | UpEvent.opened =>
      ({ st with reconnectDelay := RECONNECT_BASE_DELAY },
       [Effect.sendUpstream APP_KEY])
  | UpEvent.message msg parsed => upstreamOnMessage st msg parsed
  | UpEvent.close => scheduleReconnect "close" st
  | UpEvent.error =>
      if st.reconnectTimerPending then (st, [])
      else scheduleReconnect "error" st
  | UpEvent.timerFire =>
      (connectUpstream { st with reconnectTimerPending := false }, [])

/-- Run a sequence of upstream events, accumulating effects. -/
def run (st : RelayState) : List UpEvent → RelayState × List Effect
  | [] => (st, [])
  | e :: es =>
      let r1 := step st e
      let r2 := run r1.1 es
      (r2.1, r1.2 ++ r2.2)

/-- The delays of the reconnect timers actually created in an effect list. -/
def schedDelays : List Effect → List Nat
  | [] => []
  | Effect.scheduledReconnect _ d :: rest => d :: schedDelays rest
  | _ :: rest => schedDelays rest

/-- The `wss.on("connection")` handler: register the browser client and, if a
latest point exists, send it immediately (serialized afresh). -/
def onConnection (st : RelayState) (id : Nat) : RelayState :=
  let greeting : List String :=
    match st.lastPoint with
    | some p => [stringifyPoint p]
    | none => []
  { st with
      clients :=
        st.clients ++ [{ id := id, readyState := WebSocket.OPEN, inbox := greeting }] }

/-- The module state right after `server.listen` calls `connectUpstream()`. -/
def initialState : RelayState :=
  connectUpstream
    { lastPoint := none
      upstreamAuthorized := false
      reconnectDelay := RECONNECT_BASE_DELAY
      reconnectTimerPending := false
      clients := [] }

/-- The guard of line 114 of the source on values where it does not throw:
the parsed frame has numeric `GazeX` and `GazeY` fields
(`typeof raw.GazeX === "number"` etc.). -/
def hasNumericGaze (j : Json) : Bool :=
  match j.getProp "GazeX", j.getProp "GazeY" with
  | some (some (Json.num _)), some (some (Json.num _)) => true
  | _, _ => false

/-- `n` consecutive transport-level failure cycles: each cycle is an `error`
event (no `open` ever fires) followed by the reconnect timer firing, starting
the next attempt.  Returns the final state and the delays of the reconnect
timers created along the way. -/
def runFailCycles : RelayState → Nat → RelayState × List Nat
  | st, 0 => (st, [])
  | st, Nat.succ n =>
      let r1 := step st UpEvent.error
      let st2 := (step r1.1 UpEvent.timerFire).1
      let rest := runFailCycles st2 n
      (rest.1, schedDelays r1.2 ++ rest.2)

/-- `n` back-to-back invocations of `scheduleReconnect reason` with no timer
firing in between (as happens when overlapping error/close events coalesce). -/
def schedIterate (reason : String) : Nat → RelayState → RelayState × List Effect
  | 0, st => (st, [])
  | Nat.succ n, st =>
      let r1 := scheduleReconnect reason st
      let r2 := schedIterate reason n r1.1
      (r2.1, r1.2 ++ r2.2)

/-- A reachable state with a reconnect timer pending (one `error` after
start-up). -/
def pendingExState : RelayState :=
  { lastPoint := none
    upstreamAuthorized := false
    reconnectDelay := 2000
    reconnectTimerPending := true
    clients := [] }

/-- A reachable authorized state (start-up, `open`, auth reply `"ok"`). -/
def authedExState : RelayState :=
  { lastPoint := none
    upstreamAuthorized := true
    reconnectDelay := RECONNECT_BASE_DELAY
    reconnectTimerPending := false
    clients := [] }

/-- The parse result of the sample upstream frame
`\x7b"GazeX": 0.5, "GazeY": 0.25\x7d`. -/
def gazeFrame : Json :=
  Json.obj [("GazeX", Json.num (mkRat 1 2)), ("GazeY", Json.num (mkRat 1 4))]

/-- The sample upstream frame text itself. -/
def gazeMsg : String := "\x7b\"GazeX\":0.5,\"GazeY\":0.25\x7d"

/-- An authorized state with one open subscriber and one whose channel is
already closed. -/
def gazeHubState : RelayState :=
  { lastPoint := none
    upstreamAuthorized := true
    reconnectDelay := RECONNECT_BASE_DELAY
    reconnectTimerPending := false
    clients := [{ id := 0, readyState := WebSocket.OPEN, inbox := [] },
                { id := 1, readyState := WebSocket.CLOSED, inbox := [] }] }

-- Helper: scheduling is a no-op once a timer is pending.
lemma schedulePendingNoop (reason : String) (st : RelayState)
    (h : st.reconnectTimerPending = true) :
    scheduleReconnect reason st = (st, []) := by
  simp [scheduleReconnect, h]

-- Helper: iterated scheduling is a no-op once a timer is pending.
lemma schedIteratePendingNoop (reason : String) (n : Nat) (st : RelayState)
    (h : st.reconnectTimerPending = true) :
    schedIterate reason n st = (st, []) := by
  induction n with
  | zero => rfl
  | succ n ih => simp [schedIterate, schedulePendingNoop reason st h, ih]

-- Helper: one doubling step of the capped backoff recurrence.
lemma minPowStep (d M i : Nat) :
    min (min (d * 2) M * 2 ^ i) M = min (d * 2 ^ (i + 1)) M := by
  rcases Nat.le_total (d * 2) M with h | h
  · rw [Nat.min_eq_left h]
    congr 1
    ring
  · rw [Nat.min_eq_right h]
    have h2 : (1 : ℕ) ≤ 2 ^ i := Nat.one_le_two_pow
    have hM : M ≤ M * 2 ^ i := le_mul_of_one_le_right (Nat.zero_le M) h2
    rw [Nat.min_eq_right hM]
    have hd : M ≤ d * 2 ^ (i + 1) := by
      calc M ≤ d * 2 := h
        _ = d * 2 * 1 := by ring
        _ ≤ d * 2 * 2 ^ i := Nat.mul_le_mul_left _ h2
        _ = d * 2 ^ (i + 1) := by ring
    rw [Nat.min_eq_right hd]

-- Helper: scheduled delays of consecutive transport-failure cycles, from an
-- arbitrary in-range starting delay.
lemma runFailCyclesDelays (st : RelayState) (n : Nat)
    (hpend : st.reconnectTimerPending = false)
    (hle : st.reconnectDelay ≤ RECONNECT_MAX_DELAY) :
    (runFailCycles st n).2
      = (List.range n).map
          (fun i => min (st.reconnectDelay * 2 ^ i) RECONNECT_MAX_DELAY) := by
  induction n generalizing st with
  | zero => simp [runFailCycles]
  | succ n ih =>
    obtain ⟨lp, au, rd, tp, cl⟩ := st
    simp only at hpend hle
    cases hpend
    have hrec := ih
      { lastPoint := lp, upstreamAuthorized := false,
        reconnectDelay := min (rd * 2) RECONNECT_MAX_DELAY,
        reconnectTimerPending := false, clients := cl }
      rfl (Nat.min_le_right _ _)
    simp only [runFailCycles, step, scheduleReconnect, connectUpstream,
      Bool.false_eq_true, if_false, schedDelays] at hrec ⊢
    rw [hrec, List.range_succ_eq_map, List.map_cons, List.map_map]
    simp only [pow_zero, mul_one, Nat.min_eq_left hle, List.singleton_append,
      List.cons.injEq, true_and]
    congr 1
    funext i
    exact minPowStep rd RECONNECT_MAX_DELAY i

/-- C2 (confirmed): while a reconnect timer is pending, any sequence of
overlapping `close`/`error` events for the same failed attempt leaves the
state (in particular the pending timer and the backoff delay) unchanged and
creates no second timer (no `scheduledReconnect` effect is emitted). -/
theorem singlePendingReconnectTimer (st : RelayState) (evs : List UpEvent)
    (hev : ∀ e ∈ evs, e = UpEvent.close ∨ e = UpEvent.error)
    (hpend : st.reconnectTimerPending = true) :
    run st evs = (st, []) := by
  induction evs with
  | nil => rfl
  | cons e es ih =>
    have hstep : step st e = (st, []) := by
      rcases hev e (List.mem_cons_self e es) with h | h <;> subst h <;>
        simp [step, scheduleReconnect, hpend]
    simp [run, hstep, ih (fun e' he' => hev e' (List.mem_cons_of_mem _ he'))]

/-- Witness for C2 at a concrete pending state and event sequence. -/
theorem singlePendingReconnectTimerWitness :
    run pendingExState [UpEvent.close, UpEvent.error, UpEvent.close]
      = (pendingExState, []) :=
  singlePendingReconnectTimer pendingExState
    [UpEvent.close, UpEvent.error, UpEvent.close]
    (by
      intro e he
      simp only [List.mem_cons, List.not_mem_nil, or_false] at he
      rcases he with h | h | h
      · exact Or.inl h
      · exact Or.inr h
      · exact Or.inl h)
    rfl

/-- C10 (confirmed): calling `scheduleReconnect` with a timer already pending
changes neither the timer nor `reconnectDelay` and emits nothing; hence for
one actually-created timer, any number of further coalesced calls advance the
backoff by exactly one doubling step (`min (2 * old) max`). -/
theorem reconnectCoalescingSingleDoubling (st : RelayState)
    (reason reason2 : String) (n : Nat)
    (hpend : st.reconnectTimerPending = false) :
    (∀ st2 r3, st2.reconnectTimerPending = true →
        scheduleReconnect r3 st2 = (st2, [])) ∧
    (scheduleReconnect reason st).1.reconnectDelay
      = min (st.reconnectDelay * 2) RECONNECT_MAX_DELAY ∧
    (scheduleReconnect reason st).1.reconnectTimerPending = true ∧
    schedIterate reason2 n (scheduleReconnect reason st).1
      = ((scheduleReconnect reason st).1, []) := by
  have hpend1 : (scheduleReconnect reason st).1.reconnectTimerPending = true := by
    simp [scheduleReconnect, hpend]
  refine ⟨fun st2 r3 h => schedulePendingNoop r3 st2 h, ?_, hpend1,
    schedIteratePendingNoop reason2 n _ hpend1⟩
  simp [scheduleReconnect, hpend]

/-- Witness for C10 at a concrete timer-free state. -/
theorem reconnectCoalescingSingleDoublingWitness :
    (∀ st2 r3, st2.reconnectTimerPending = true →
        scheduleReconnect r3 st2 = (st2, [])) ∧
    (scheduleReconnect "close" initialState).1.reconnectDelay
      = min (initialState.reconnectDelay * 2) RECONNECT_MAX_DELAY ∧
    (scheduleReconnect "close" initialState).1.reconnectTimerPending = true ∧
    schedIterate "error" 3 (scheduleReconnect "close" initialState).1
      = ((scheduleReconnect "close" initialState).1, []) :=
  reconnectCoalescingSingleDoubling initialState "close" "error" 3 rfl

/-- C1 counterexample: in the run `error, timer fires, open, auth reply
"fail"` from start-up, the delay has grown to 2000 ms before the `open`;
the transport-level connect alone resets it to the base 1000 ms, and the
reconnect scheduled after the failed auth reply uses the base delay again —
all without any successful authorization (the final state is still
unauthorized).  This refutes the claim that a cycle whose connect succeeds
but whose auth fails does not reset the delay to base. -/
theorem openResetWithoutAuthCounterexample :
    (run initialState [UpEvent.error, UpEvent.timerFire]).1.reconnectDelay
        = 2 * RECONNECT_BASE_DELAY ∧
    (run initialState
        [UpEvent.error, UpEvent.timerFire, UpEvent.opened]).1.reconnectDelay
        = RECONNECT_BASE_DELAY ∧
    schedDelays (run initialState
        [UpEvent.error, UpEvent.timerFire, UpEvent.opened,
         UpEvent.message "fail" none]).2
      = [RECONNECT_BASE_DELAY, RECONNECT_BASE_DELAY] ∧
    (run initialState
        [UpEvent.error, UpEvent.timerFire, UpEvent.opened,
         UpEvent.message "fail" none]).1.upstreamAuthorized = false := by
  decide

/-- C1 amended: the event that resets the reconnect delay to base is the
successful transport-level connect (the `open` event), not successful
authorization; in a cycle whose connect succeeds but whose auth reply then
fails, the reconnect is scheduled with the base delay. -/
theorem openResetsDelayToBase (st : RelayState) (msg : String)
    (parsed : Option Json)
    (hauth : st.upstreamAuthorized = false)
    (hpend : st.reconnectTimerPending = false)
    (hmsg : jsStartsWith msg "ok" = false) :
    (step st UpEvent.opened).1.reconnectDelay = RECONNECT_BASE_DELAY ∧
    schedDelays (run st [UpEvent.opened, UpEvent.message msg parsed]).2
      = [RECONNECT_BASE_DELAY] := by
  obtain ⟨lp, au, rd, tp, cl⟩ := st
  simp only at hauth hpend
  cases hauth
  cases hpend
  refine ⟨rfl, ?_⟩
  simp [run, step, upstreamOnMessage, hmsg, scheduleReconnect, schedDelays]

/-- Witness for the amended C1 at a concrete state and auth reply. -/
theorem openResetsDelayToBaseWitness :
    (step initialState UpEvent.opened).1.reconnectDelay = RECONNECT_BASE_DELAY ∧
    schedDelays (run initialState
        [UpEvent.opened, UpEvent.message "fail" none]).2
      = [RECONNECT_BASE_DELAY] :=
  openResetsDelayToBase initialState "fail" none rfl rfl (by decide)

/-- C3 counterexample: the run `error, timer fires, open, auth reply "fail"`
from start-up contains two scheduled reconnects and no successful
authorization, yet the second scheduled delay is the base 1000 ms, not
`min (base * 2^(2-1), max) = 2000` — the `open` in the auth-failing cycle
reset the backoff.  This refutes the claimed formula for sequences that
include a connect failure with a successful transport-level open. -/
theorem backoffFormulaCounterexample :
    schedDelays (run initialState
        [UpEvent.error, UpEvent.timerFire, UpEvent.opened,
         UpEvent.message "fail" none]).2
      = [RECONNECT_BASE_DELAY, RECONNECT_BASE_DELAY] ∧
    (run initialState
        [UpEvent.error, UpEvent.timerFire, UpEvent.opened]).1.upstreamAuthorized
      = false ∧
    (run initialState
        [UpEvent.error, UpEvent.timerFire, UpEvent.opened,
         UpEvent.message "fail" none]).1.upstreamAuthorized = false ∧
    RECONNECT_BASE_DELAY
      ≠ min (RECONNECT_BASE_DELAY * 2 ^ (2 - 1)) RECONNECT_MAX_DELAY := by
  decide

/-- C3 amended: for every sequence of consecutive transport-level connect
failures (cycles in which no `open` event fires), starting from the base
delay, the delay used for the Nth scheduled reconnect equals
`min (base * 2^(N-1), max)`: each scheduling uses the current delay and then
doubles it, capped at the maximum. -/
theorem transportFailureBackoffFormula (st : RelayState) (n : Nat)
    (hpend : st.reconnectTimerPending = false)
    (hdelay : st.reconnectDelay = RECONNECT_BASE_DELAY) :
    (runFailCycles st n).2
      = (List.range n).map
          (fun i => min (RECONNECT_BASE_DELAY * 2 ^ i) RECONNECT_MAX_DELAY) := by
  have h := runFailCyclesDelays st n hpend (by rw [hdelay]; decide)
  rw [h, hdelay]

/-- Witness for the amended C3: five consecutive transport failures from
start-up schedule delays 1000, 2000, 4000, 8000, 10000. -/
theorem transportFailureBackoffFormulaWitness :
    (runFailCycles initialState 5).2
      = (List.range 5).map
          (fun i => min (RECONNECT_BASE_DELAY * 2 ^ i) RECONNECT_MAX_DELAY) :=
  transportFailureBackoffFormula initialState 5 rfl rfl

/-- C4 (confirmed): for every connection cycle (a `connectUpstream` followed
by the `open` event), the first inbound frame is handled as the auth reply —
it never publishes a point (the latest-point cache and every subscriber
inbox are untouched), even when its content is valid JSON with numeric
`GazeX`/`GazeY` fields; the resulting authorized flag is exactly the
`"ok"`-prefix test of the frame text. -/
theorem firstFrameAfterOpenIsAuthReply (st : RelayState) (msg : String)
    (parsed : Option Json) :
    (upstreamOnMessage (step (connectUpstream st) UpEvent.opened).1
        msg parsed).1.lastPoint = st.lastPoint ∧
    (upstreamOnMessage (step (connectUpstream st) UpEvent.opened).1
        msg parsed).1.clients = st.clients ∧
    (upstreamOnMessage (step (connectUpstream st) UpEvent.opened).1
        msg parsed).1.upstreamAuthorized = jsStartsWith msg "ok" := by
  obtain ⟨lp, au, rd, tp, cl⟩ := st
  by_cases h : jsStartsWith msg "ok" <;>
    cases tp <;>
      simp [connectUpstream, step, upstreamOnMessage, scheduleReconnect, h]

/-- C5 (confirmed): the auth reply authorizes exactly when the reply text
begins with the case-sensitive literal prefix `"ok"`; on failure (with no
timer already pending) the connection is closed and a reconnect is scheduled
with reason `auth_failed`; `"ok"` and `"ok, welcome"` pass the prefix test
while `"fail"`, `""` and `"OK"` do not. -/
theorem authReplyOkPrefix :
    (∀ st msg parsed, st.upstreamAuthorized = false →
        (upstreamOnMessage st msg parsed).1.upstreamAuthorized
          = jsStartsWith msg "ok") ∧
    (∀ st msg parsed, st.upstreamAuthorized = false →
        st.reconnectTimerPending = false → jsStartsWith msg "ok" = false →
        (upstreamOnMessage st msg parsed).2
          = [Effect.closeUpstream,
             Effect.scheduledReconnect "auth_failed" st.reconnectDelay]) ∧
    jsStartsWith "ok" "ok" = true ∧
    jsStartsWith "ok, welcome" "ok" = true ∧
    jsStartsWith "fail" "ok" = false ∧
    jsStartsWith "" "ok" = false ∧
    jsStartsWith "OK" "ok" = false := by
  refine ⟨?_, ?_, by decide, by decide, by decide, by decide, by decide⟩
  · intro st msg parsed hauth
    obtain ⟨lp, au, rd, tp, cl⟩ := st
    simp only at hauth
    cases hauth
    by_cases h : jsStartsWith msg "ok" <;>
      cases tp <;> simp [upstreamOnMessage, scheduleReconnect, h]
  · intro st msg parsed hauth hpend hmsg
    obtain ⟨lp, au, rd, tp, cl⟩ := st
    simp only at hauth hpend
    cases hauth
    cases hpend
    simp [upstreamOnMessage, scheduleReconnect, hmsg]

/-- Witness for C5: a failing reply `"fail"` at a concrete unauthorized state
closes the connection and schedules an `auth_failed` reconnect. -/
theorem authReplyOkPrefixWitness :
    (upstreamOnMessage initialState "fail" none).2
      = [Effect.closeUpstream,
         Effect.scheduledReconnect "auth_failed" initialState.reconnectDelay] :=
  authReplyOkPrefix.2.1 initialState "fail" none rfl rfl (by decide)

-- Helper: while authorized, a frame that fails to parse, or parses to any
-- value other than null that lacks numeric GazeX/GazeY fields, really is
-- discarded with the state unchanged and no effect; the parsed null of the
-- C8 claim theorem below is the single exception.
lemma nonNullBadFrameIsDiscarded (st : RelayState) (msg : String)
    (parsed : Option Json)
    (hauth : st.upstreamAuthorized = true)
    (hbad : parsed = none
      ∨ ∃ j, parsed = some j ∧ j ≠ Json.null ∧ hasNumericGaze j = false) :
    upstreamOnMessage st msg parsed = (st, []) := by
  rcases hbad with h | ⟨j, hj, hnn, hbadj⟩
  · subst h
    simp [upstreamOnMessage, hauth]
  · subst hj
    cases j with
    | null => exact absurd rfl hnn
    | bool b => simp [upstreamOnMessage, hauth, Json.getProp]
    | num q => simp [upstreamOnMessage, hauth, Json.getProp]
    | str s => simp [upstreamOnMessage, hauth, Json.getProp]
    | arr elems => simp [upstreamOnMessage, hauth, Json.getProp]
    | obj fields =>
        simp only [upstreamOnMessage, hauth, Bool.true_eq_false, if_false]
        split
        · simp_all [Json.getProp]
        · simp_all [Json.getProp]
        · simp_all [Json.getProp, hasNumericGaze]
        · rfl

/-- C8 (code bug): the frame text `"null"` is valid JSON lacking the gaze
fields, so the claim requires it to be discarded without effect while
authorized; instead it passes `JSON.parse` and reaches line 114, where the
property access `raw.GazeX` on the parsed `null` throws a `TypeError` that
nothing catches — the handler produces the uncaught-TypeError outcome
(crashing the process and stopping all message processing) rather than the
claimed no-op. -/
theorem nullFrameCrashesWhileAuthorized :
    upstreamOnMessage authedExState "null" (some Json.null)
      = (authedExState, [Effect.uncaughtTypeError]) := by
  decide

/-- C9 (confirmed): every frame received while unauthorized is handled as an
auth reply, not only the first: after a failed reply has closed the
connection and scheduled a reconnect, a later frame beginning with `"ok"`
arriving on the same connection still flips the client to authorized, with
no new effects and the reconnect timer left pending. -/
theorem laterOkFrameStillAuthorizes (st : RelayState) (msg1 msg2 : String)
    (parsed1 parsed2 : Option Json)
    (hauth : st.upstreamAuthorized = false)
    (hpend : st.reconnectTimerPending = false)
    (h1 : jsStartsWith msg1 "ok" = false)
    (h2 : jsStartsWith msg2 "ok" = true) :
    (upstreamOnMessage st msg1 parsed1).1.upstreamAuthorized = false ∧
    (upstreamOnMessage st msg1 parsed1).1.reconnectTimerPending = true ∧
    (upstreamOnMessage (upstreamOnMessage st msg1 parsed1).1
        msg2 parsed2).1.upstreamAuthorized = true ∧
    (upstreamOnMessage (upstreamOnMessage st msg1 parsed1).1
        msg2 parsed2).1.reconnectTimerPending = true ∧
    (upstreamOnMessage (upstreamOnMessage st msg1 parsed1).1
        msg2 parsed2).2 = [] := by
  obtain ⟨lp, au, rd, tp, cl⟩ := st
  simp only at hauth hpend
  cases hauth
  cases hpend
  simp [upstreamOnMessage, scheduleReconnect, h1, h2]

/-- Witness for C9 at a concrete state and frames. -/
theorem laterOkFrameStillAuthorizesWitness :
    (upstreamOnMessage initialState "fail" none).1.upstreamAuthorized = false ∧
    (upstreamOnMessage initialState "fail" none).1.reconnectTimerPending
      = true ∧
    (upstreamOnMessage (upstreamOnMessage initialState "fail" none).1
        "ok, welcome" none).1.upstreamAuthorized = true ∧
    (upstreamOnMessage (upstreamOnMessage initialState "fail" none).1
        "ok, welcome" none).1.reconnectTimerPending = true ∧
    (upstreamOnMessage (upstreamOnMessage initialState "fail" none).1
        "ok, welcome" none).2 = [] :=
  laterOkFrameStillAuthorizes initialState "fail" "ok, welcome" none none
    rfl rfl (by decide) (by decide)

/-- C6 (confirmed): `broadcastPoint` stores the published point as the
latest (overwriting any previous value) and delivers the single serialized
payload `stringifyPoint p` to every subscriber whose channel is `OPEN`,
leaving every other subscriber untouched (skipped, not an error); in
particular, on the upstream data `\x7b"GazeX": 0.5, "GazeY": 0.25\x7d` every
currently-open subscriber receives exactly `\x7b"x":0.5,"y":0.25\x7d`. -/
theorem publishStoresSerializesAndFansOut (st : RelayState) (p : Point) :
    (broadcastPoint st p).lastPoint = some p ∧
    (∀ i : Nat,
        (broadcastPoint st p).clients[i]?
          = (st.clients[i]?).map (fun c =>
              if c.readyState = WebSocket.OPEN then
                { c with inbox := c.inbox ++ [stringifyPoint p] }
              else c)) ∧
    (upstreamOnMessage gazeHubState gazeMsg (some gazeFrame)).1.clients
      = [{ id := 0, readyState := WebSocket.OPEN,
           inbox := ["\x7b\"x\":0.5,\"y\":0.25\x7d"] },
         { id := 1, readyState := WebSocket.CLOSED, inbox := [] }] := by
  refine ⟨rfl, ?_, by decide⟩
  intro i
  simp only [broadcastPoint, List.getElem?_map]
  cases st.clients[i]? with
  | none => rfl
  | some c => simp [sendToOpenClient]

/-- C7 (confirmed): a subscriber that registers after publishes receives the
single most recent point as its first message, immediately on registration
and before any later publish reaches it — after three publishes the new
subscriber's inbox starts with exactly the third point's payload (not the
first two), a fourth publish arrives only after it, and a subscriber that
registers before any publish receives no priming message. -/
theorem lateJoinerPrimedWithLatest (st : RelayState) (p1 p2 p3 p4 : Point)
    (id : Nat) :
    ((onConnection (broadcastPoint (broadcastPoint (broadcastPoint st p1) p2)
        p3) id).clients.getLast?).map Client.inbox
      = some [stringifyPoint p3] ∧
    (∀ st0 : RelayState, st0.lastPoint = none →
        ((onConnection st0 id).clients.getLast?).map Client.inbox = some []) ∧
    ((broadcastPoint (onConnection (broadcastPoint (broadcastPoint
        (broadcastPoint st p1) p2) p3) id) p4).clients.getLast?).map
          Client.inbox
      = some [stringifyPoint p3, stringifyPoint p4] := by
  refine ⟨?_, ?_, ?_⟩
  · simp [onConnection, broadcastPoint, List.getLast?_concat]
  · intro st0 h0
    simp [onConnection, h0, List.getLast?_concat]
  · simp [onConnection, broadcastPoint, List.map_append,
      List.getLast?_concat, sendToOpenClient, WebSocket.OPEN]

/-- Witness for C7: a subscriber registering at start-up (no point published
yet) receives no priming message. -/
theorem lateJoinerPrimedWithLatestWitness :
    ((onConnection initialState 7).clients.getLast?).map Client.inbox
      = some [] :=
  (lateJoinerPrimedWithLatest initialState
      { x := mkRat 0 1, y := mkRat 0 1 } { x := mkRat 0 1, y := mkRat 0 1 }
      { x := mkRat 0 1, y := mkRat 0 1 } { x := mkRat 0 1, y := mkRat 0 1 }
      7).2.1 initialState rfl
